import Mathlib

/-!
Verification development for the Squibbles evolution simulator.

The definitions below are a shallow embedding of the simulation core:
combat resolution, the incest-interval mutation scaling, offspring trait
derivation, the food slot/regeneration model, the spatial grid, target
selection, the mutation hooks relevant to Null Core and Rage State, the
random-attack path, the per-creature update pipeline, and mating.

Conventions: Python floats are modelled as rationals; random draws are
explicit arguments (for random.uniform(a, b) the argument is the drawn
value); pygame.time.get_ticks() timestamps are integer arguments.
Euclidean-distance comparisons (math.hypot(dx, dy) <= r) are modelled as
squared comparisons (dx^2 + dy^2 <= r^2), which agree for r >= 0.
-/

/-- Combat damage formula, shared by the targeted contact resolution in
Creature.update and by Creature.random_attack:
damage = max(0, effective_attack - defense). -/
def damage (attack defense : ℚ) : ℚ := max 0 (attack - defense)

/-- Result of applying one attack to a defender. -/
structure AttackResult where
  defenderHealth : ℚ
  killRecorded : Bool
  attackerKills : ℕ
  globalKills : ℕ
deriving Repr, DecidableEq

/-- Embedding of the damage-application block of combat resolution
(Creature.update contact combat and Creature.random_attack): if damage
is positive it is subtracted from the defender, and a kill is recorded
(incrementing the attacker's kill_count and the global kill counter)
when the defender was alive before and its health is now at most 0. -/
def resolveAttack (effAttack defenderDefense defenderHealth : ℚ)
    (attackerKills globalKills : ℕ) : AttackResult :=
  let d := damage effAttack defenderDefense
  if 0 < d then
    let wasAlive := decide (0 < defenderHealth)
    let newHealth := defenderHealth - d
    let killed := wasAlive && decide (newHealth ≤ 0)
    { defenderHealth := newHealth
      killRecorded := killed
      attackerKills := if killed then attackerKills + 1 else attackerKills
      globalKills := if killed then globalKills + 1 else globalKills }
  else
    { defenderHealth := defenderHealth
      killRecorded := false
      attackerKills := attackerKills
      globalKills := globalKills }

/-- Claim C2: in every attack resolution (targeted combat and ambient
random attacks), with fixed attacker and defender stats and a fixed
random draw, the damage applied to the defender equals
max(0, effective_attack - defense), and a kill (increment of the
attacker's kill counter and of the global counter) is recorded if and
only if defender.health - damage <= 0, for a defender that is alive
when the attack lands. -/
theorem C2_combat_damage_kill (a dfn h : ℚ) (ak gk : ℕ) (hAlive : 0 < h) :
    damage a dfn = max 0 (a - dfn) ∧
    (resolveAttack a dfn h ak gk).defenderHealth = h - damage a dfn ∧
    ((resolveAttack a dfn h ak gk).killRecorded = true ↔ h - damage a dfn ≤ 0) ∧
    ((resolveAttack a dfn h ak gk).attackerKills = ak + 1 ↔ h - damage a dfn ≤ 0) ∧
    ((resolveAttack a dfn h ak gk).globalKills = gk + 1 ↔ h - damage a dfn ≤ 0) := by
  refine ⟨rfl, ?_⟩
  have hnn : 0 ≤ damage a dfn := le_max_left 0 (a - dfn)
  by_cases hd : 0 < damage a dfn
  · have hA : decide (0 < h) = true := by simp [hAlive]
    by_cases hk : h - damage a dfn ≤ 0 <;>
      simp [resolveAttack, hd, hA, hk]
  · have hz : damage a dfn = 0 := le_antisymm (not_lt.mp hd) hnn
    have hk : ¬ (h - damage a dfn ≤ 0) := by rw [hz]; linarith
    have had : a ≤ dfn := by
      by_contra hcon
      exact hd (by unfold damage; rw [max_eq_right (by linarith)]; linarith)
    simp [resolveAttack, hd, hz, hk, had]
    all_goals exact hAlive

/-- Witness for C2 at a concrete lethal attack: effective attack 5,
defense 1, defender health 3 gives damage 4 and a recorded kill. -/
theorem C2_combat_damage_kill_witness :
    (resolveAttack 5 1 3 0 0).killRecorded = true :=
  ((C2_combat_damage_kill 5 1 3 0 0 (by norm_num)).2.2.1).mpr (by
    have : damage 5 1 = 4 := by unfold damage; norm_num
    rw [this]; norm_num)

/-- Incest-interval scale factor from Creature.make_offspring:
scale = min(10, 10 / interval) when interval >= 1, else 1. -/
def incestScale (interval : ℚ) : ℚ :=
  if 1 ≤ interval then min 10 (10 / interval) else 1

/-- Base mega-rare mutation roll probability in the incest-scaled block of
make_offspring (0.0000001). -/
def baseMegaRareProb : ℚ := 1 / 10000000

/-- Base normal mutation roll probability in the incest-scaled block of
make_offspring (0.00001). -/
def baseNormalProb : ℚ := 1 / 100000

/-- Threshold compared against the uniform [0,1) roll for the mega-rare
mutation tier: the roll succeeds iff roll < baseMegaRareProb * scale, so
for a uniform roll this threshold is the success probability. -/
def megaRareThreshold (interval : ℚ) : ℚ := baseMegaRareProb * incestScale interval

/-- Threshold compared against the uniform [0,1) roll for the normal
mutation tier. -/
def normalThreshold (interval : ℚ) : ℚ := baseNormalProb * incestScale interval

/-- Lineage table: creature id paired with optional (mother id, father id),
mirroring FamilyNode.parent_ids in familytree.py. -/
abbrev LineageTable := List (ℕ × (Option ℕ × Option ℕ))

/-- Non-null parent ids of a node, as collected by
find_most_recent_common_ancestor when expanding a frontier. -/
def parentsOf (tree : LineageTable) (i : ℕ) : List ℕ :=
  match tree.lookup i with
  | some mf => [mf.1, mf.2].filterMap id
  | none => []

/-- One frontier-expansion step of find_most_recent_common_ancestor. -/
def frontierParents (tree : LineageTable) (cur : List ℕ) : List ℕ :=
  cur.flatMap (parentsOf tree)

/-- Loop body of find_most_recent_common_ancestor: at each depth both
frontiers are expanded by one parent generation, accumulated into the
ancestor sets, and the depth is returned at the first nonempty
intersection; when the loop runs out (max_depth = 10) the sentinel
max_depth + 1 = 11 is returned. -/
def mrcaGo (tree : LineageTable) : ℕ → ℕ → List ℕ → List ℕ → List ℕ → List ℕ → ℕ
  | 0, _, _, _, _, _ => 11
  | fuel + 1, depth, anc1, anc2, cur1, cur2 =>
    let next1 := frontierParents tree cur1
    let anc1x := anc1 ++ next1
    let next2 := frontierParents tree cur2
    let anc2x := anc2 ++ next2
    if anc1x.any (fun a => anc2x.contains a) then depth
    else mrcaGo tree fuel (depth + 1) anc1x anc2x next1 next2

/-- Embedding of find_most_recent_common_ancestor(id1, id2, max_depth=10)
from Creature.make_offspring: graph distance to the nearest common
ancestor, or the sentinel 11 when none is found within depth 10. -/
def findMostRecentCommonAncestorInterval (tree : LineageTable) (id1 id2 : ℕ) : ℕ :=
  mrcaGo tree 10 1 [id1] [id2] [id1] [id2]

/-- Lineage with two unrelated founders 1 and 2 and their two common
children 3 and 4 (full siblings). -/
def siblingTree : LineageTable :=
  [(1, (none, none)), (2, (none, none)), (3, (some 1, some 2)), (4, (some 1, some 2))]

/-- Counterexample to claim C3: the mutation-roll scale system does give
incestScale 1 = 10 for sibling parents, but the no-common-ancestor
sentinel interval is 11, for which incestScale 11 = 10/11; so the
sibling roll threshold is 11 times the no-ancestor threshold, not 10
times as the claim states. -/
theorem C3_counterexample :
    incestScale 1 = 10 ∧
    incestScale 11 = 10 / 11 ∧
    findMostRecentCommonAncestorInterval siblingTree 3 4 = 1 ∧
    findMostRecentCommonAncestorInterval siblingTree 1 2 = 11 ∧
    megaRareThreshold 1 = 11 * megaRareThreshold 11 ∧
    ¬ megaRareThreshold 1 = 10 * megaRareThreshold 11 := by
  refine ⟨?_, ?_, by decide, by decide, ?_, ?_⟩ <;>
    norm_num [megaRareThreshold, baseMegaRareProb, incestScale, min_def]

/-- Claim C3 (amended): for every interval >= 1 the mutation-roll scale
factor equals min(10, 10/interval); a sibling pair has interval 1 and a
pair with no common ancestor within the bounded search depth gets the
sentinel interval 11, so the sibling roll threshold (hence the roll
probability of a uniform [0,1) draw) is exactly 11 times, not 10 times,
the no-common-ancestor threshold, for both mutation tiers. -/
theorem C3_incest_scale (interval : ℚ) (h1 : 1 ≤ interval) :
    incestScale interval = min 10 (10 / interval) ∧
    findMostRecentCommonAncestorInterval siblingTree 3 4 = 1 ∧
    findMostRecentCommonAncestorInterval siblingTree 1 2 = 11 ∧
    megaRareThreshold 1 = 11 * megaRareThreshold 11 ∧
    normalThreshold 1 = 11 * normalThreshold 11 := by
  refine ⟨?_, by decide, by decide, ?_, ?_⟩
  · unfold incestScale
    rw [if_pos h1]
  · norm_num [megaRareThreshold, baseMegaRareProb, incestScale, min_def]
  · norm_num [normalThreshold, baseNormalProb, incestScale, min_def]

/-- Witness for C3 at interval 4: the scale evaluates to 10/4. -/
theorem C3_incest_scale_witness :
    incestScale 4 = min 10 (10 / 4) :=
  (C3_incest_scale 4 (by norm_num)).1

/-- Truncation toward zero, the behavior of the Python int() conversion
applied to trait values in make_offspring. -/
def ratTrunc (q : ℚ) : ℤ := if q < 0 then -⌊-q⌋ else ⌊q⌋

/-- Embedding of the local mutate helper of Creature.make_offspring:
mutate(val, pct) = max(0.1, val * (1 + random.uniform(-pct, pct))); the
argument u is the concrete value drawn by random.uniform(-pct, pct). -/
def mutateTrait (v u : ℚ) : ℚ := max (1 / 10) (v * (1 + u))

/-- Continuous traits of one parent, as read by make_offspring. -/
structure ParentTraits where
  hue : ℚ
  maxHealth : ℚ
  speed : ℚ
  vision : ℚ
  offspringCount : ℚ
  attractiveness : ℚ
  attack : ℚ
  defense : ℚ
  aggression : ℚ
  infertility : ℚ
deriving Repr, DecidableEq

/-- Concrete values of the random.uniform(-pct, pct) draws consumed by one
call of make_offspring, one per mutated trait. -/
structure TraitDraws where
  uHue : ℚ
  uHealth : ℚ
  uSpeed : ℚ
  uVision : ℚ
  uOff : ℚ
  uAttr : ℚ
  uAtk : ℚ
  uDef : ℚ
  uAggr : ℚ
  uInf : ℚ
deriving Repr, DecidableEq

/-- Inherited traits of the child, as assigned by make_offspring. -/
structure ChildTraits where
  hue : ℚ
  maxHealth : ℤ
  speed : ℚ
  vision : ℤ
  offspringCount : ℤ
  attractiveness : ℚ
  attack : ℚ
  defense : ℚ
  aggression : ℚ
  infertility : ℤ
deriving Repr, DecidableEq

/-- Embedding of the trait-derivation block of Creature.make_offspring:
every continuous trait is the parents' average pushed through mutate,
with hue wraparound handling (offset the average by 0.5 mod 1 when the
parent hues differ by more than 0.5), and with the integer truncations
and clamps the code applies to max_health, vision, offspring_count,
aggression and infertility. -/
def makeOffspringTraits (p q : ParentTraits) (d : TraitDraws) : ChildTraits :=
  let hueAvg0 := (p.hue + q.hue) / 2
  let hueAvg := if 1 / 2 < |p.hue - q.hue| then Int.fract (hueAvg0 + 1 / 2) else hueAvg0
  { hue := mutateTrait hueAvg d.uHue
    maxHealth := ratTrunc (max 1 (min 100 (mutateTrait ((p.maxHealth + q.maxHealth) / 2) d.uHealth)))
    speed := mutateTrait ((p.speed + q.speed) / 2) d.uSpeed
    vision := max 1 (ratTrunc (mutateTrait ((p.vision + q.vision) / 2) d.uVision))
    offspringCount := max 1 (min 5 (ratTrunc (mutateTrait ((p.offspringCount + q.offspringCount) / 2) d.uOff)))
    attractiveness := mutateTrait ((p.attractiveness + q.attractiveness) / 2) d.uAttr
    attack := mutateTrait ((p.attack + q.attack) / 2) d.uAtk
    defense := mutateTrait ((p.defense + q.defense) / 2) d.uDef
    aggression := max 0 (min 1 (mutateTrait ((p.aggression + q.aggression) / 2) d.uAggr))
    infertility := max 1 (min 100 (ratTrunc (mutateTrait ((p.infertility + q.infertility) / 2) d.uInf))) }

/-- Counterexample to claim C6: vision is not mutate(avg, pct). With
mother vision 10, father vision 11 and a legal draw of 0 for the 10
percent roll, mutate(avg, pct) is 10.5 but the child vision the code
assigns is max(1, int(10.5)) = 10. -/
theorem C6_counterexample :
    |(0 : ℚ)| ≤ 1 / 10 ∧
    mutateTrait ((10 + 11) / 2) 0 = 21 / 2 ∧
    (makeOffspringTraits
        { hue := 0, maxHealth := 50, speed := 1, vision := 10, offspringCount := 2,
          attractiveness := 1, attack := 1, defense := 1, aggression := 0, infertility := 10 }
        { hue := 0, maxHealth := 50, speed := 1, vision := 11, offspringCount := 2,
          attractiveness := 1, attack := 1, defense := 1, aggression := 0, infertility := 10 }
        { uHue := 0, uHealth := 0, uSpeed := 0, uVision := 0, uOff := 0,
          uAttr := 0, uAtk := 0, uDef := 0, uAggr := 0, uInf := 0 }).vision = 10 ∧
    ¬ ((10 : ℚ) = 21 / 2) := by
  refine ⟨by norm_num, ?_, ?_, by norm_num⟩
  · norm_num [mutateTrait, max_def]
  · norm_num [makeOffspringTraits, mutateTrait, ratTrunc, max_def, min_def]

/-- Claim C6 (amended): in make_offspring, for every pair of parents and
every fixed set of random draws, each unclamped continuous trait of the
child (speed, attack, defense, attractiveness, hue) equals
mutate(avg(mother.trait, father.trait), pct), where
mutate(v, pct) = max(0.1, v * (1 + u)) for the value u drawn by
uniform(-pct, pct); hue averaging offsets the average by 0.5 (mod 1)
before mutation exactly when |h1 - h2| > 0.5; vision, however, is the
mutated average truncated to an integer and floored at 1, not the
mutated average itself. -/
theorem C6_offspring_traits (p q : ParentTraits) (d : TraitDraws) :
    (∀ v u : ℚ, mutateTrait v u = max (1 / 10) (v * (1 + u))) ∧
    (makeOffspringTraits p q d).speed = mutateTrait ((p.speed + q.speed) / 2) d.uSpeed ∧
    (makeOffspringTraits p q d).attack = mutateTrait ((p.attack + q.attack) / 2) d.uAtk ∧
    (makeOffspringTraits p q d).defense = mutateTrait ((p.defense + q.defense) / 2) d.uDef ∧
    (makeOffspringTraits p q d).attractiveness =
      mutateTrait ((p.attractiveness + q.attractiveness) / 2) d.uAttr ∧
    (1 / 2 < |p.hue - q.hue| →
      (makeOffspringTraits p q d).hue =
        mutateTrait (Int.fract ((p.hue + q.hue) / 2 + 1 / 2)) d.uHue) ∧
    (|p.hue - q.hue| ≤ 1 / 2 →
      (makeOffspringTraits p q d).hue = mutateTrait ((p.hue + q.hue) / 2) d.uHue) ∧
    (makeOffspringTraits p q d).vision =
      max 1 (ratTrunc (mutateTrait ((p.vision + q.vision) / 2) d.uVision)) := by
  refine ⟨fun v u => rfl, rfl, rfl, rfl, rfl, ?_, ?_, rfl⟩
  · intro hwrap
    simp only [makeOffspringTraits, if_pos hwrap]
  · intro hnear
    have : ¬ (1 / 2 < |p.hue - q.hue|) := not_lt.mpr hnear
    simp only [makeOffspringTraits, if_neg this]

/-- Witness for C6 with wrapped hues 0.9 and 0.1: the hue average is
offset by 0.5 before mutation. -/
theorem C6_offspring_traits_witness :
    (makeOffspringTraits
        { hue := 9 / 10, maxHealth := 50, speed := 1, vision := 10, offspringCount := 2,
          attractiveness := 1, attack := 1, defense := 1, aggression := 0, infertility := 10 }
        { hue := 1 / 10, maxHealth := 50, speed := 1, vision := 10, offspringCount := 2,
          attractiveness := 1, attack := 1, defense := 1, aggression := 0, infertility := 10 }
        { uHue := 0, uHealth := 0, uSpeed := 0, uVision := 0, uOff := 0,
          uAttr := 0, uAtk := 0, uDef := 0, uAggr := 0, uInf := 0 }).hue =
      mutateTrait (Int.fract (((9 : ℚ) / 10 + 1 / 10) / 2 + 1 / 2)) 0 :=
  ((C6_offspring_traits
      { hue := 9 / 10, maxHealth := 50, speed := 1, vision := 10, offspringCount := 2,
        attractiveness := 1, attack := 1, defense := 1, aggression := 0, infertility := 10 }
      { hue := 1 / 10, maxHealth := 50, speed := 1, vision := 10, offspringCount := 2,
        attractiveness := 1, attack := 1, defense := 1, aggression := 0, infertility := 10 }
      { uHue := 0, uHealth := 0, uSpeed := 0, uVision := 0, uOff := 0,
        uAttr := 0, uAtk := 0, uDef := 0, uAggr := 0, uInf := 0 }).2.2.2.2.2.1) (by
    have habs : |(9 : ℚ) / 10 - 1 / 10| = 4 / 5 := by
      rw [abs_of_nonneg] <;> norm_num
    rw [habs]
    norm_num)

/-- Food species of Food.py (the keys of Food._species_config). -/
inductive FoodSpecies
  | plainsshrub
  | foresttree
  | cactus
  | tundrabush
deriving Repr, DecidableEq

/-- Per-species regen_delay from Food._species_config. -/
def speciesRegenDelay : FoodSpecies → ℚ
  | FoodSpecies.plainsshrub => 5
  | FoodSpecies.foresttree => 10
  | FoodSpecies.cactus => 20
  | FoodSpecies.tundrabush => 10

/-- Per-species hunger_gain from Food._species_config. -/
def speciesHungerGain : FoodSpecies → ℚ
  | FoodSpecies.plainsshrub => 10
  | FoodSpecies.foresttree => 20
  | FoodSpecies.cactus => 8
  | FoodSpecies.tundrabush => 15

/-- Per-species thirst_gain from Food._species_config. -/
def speciesThirstGain : FoodSpecies → ℚ
  | FoodSpecies.cactus => 8
  | _ => 0

/-- State of one Food sprite (Food.py): slot counts, the eaten flag, the
two regeneration timestamps, and the per-species configuration copied
into the instance by Food.__init__. -/
structure FoodItem where
  species : FoodSpecies
  maxSlots : ℕ
  remainingSlots : ℕ
  eaten : Bool
  eatenTime : ℚ
  lastRegenTime : ℚ
  regenDelay : ℚ
  hungerGain : ℚ
  thirstGain : ℚ
deriving Repr, DecidableEq

/-- Food.__init__ for a given species: 3 slots, not eaten, zero timers,
species-specific regeneration and nutrition configuration. -/
def mkFood (s : FoodSpecies) : FoodItem :=
  { species := s
    maxSlots := 3
    remainingSlots := 3
    eaten := false
    eatenTime := 0
    lastRegenTime := 0
    regenDelay := speciesRegenDelay s
    hungerGain := speciesHungerGain s
    thirstGain := speciesThirstGain s }

/-- Embedding of Food.eat(current_time): returns None and leaves the item
unchanged when already eaten or with no slot left; otherwise consumes
one slot, stamps last_regen_time, marks the item eaten (stamping
eaten_time) when the last slot went, and returns the nutrition pair. -/
def foodEat (f : FoodItem) (currentTime : ℚ) : Option (ℚ × ℚ) × FoodItem :=
  if f.eaten || f.remainingSlots = 0 then (none, f)
  else
    let r := f.remainingSlots - 1
    let f1 := { f with remainingSlots := r, lastRegenTime := currentTime }
    let f2 := if r = 0 then { f1 with eaten := true, eatenTime := currentTime } else f1
    (some (f.hungerGain, f.thirstGain), f2)

/-- Embedding of FoodManager.respawn_food: one slot back (capped at
max_slots), eaten_time cleared, and the eaten flag dropped when at
least one slot is present. -/
def foodRespawn (f : FoodItem) : FoodItem :=
  let r := min f.maxSlots (f.remainingSlots + 1)
  let f1 := { f with remainingSlots := r, eatenTime := 0 }
  if 0 < r then { f1 with eaten := false } else f1

/-- Embedding of the per-food body of FoodManager.update: the baseline is
eaten_time when fully eaten and last_regen_time otherwise; when
regen_delay has elapsed since the baseline and a slot is missing, one
slot is respawned and last_regen_time is reset to the current time. -/
def foodRegenStep (f : FoodItem) (currentTime : ℚ) : FoodItem :=
  let lastTime := if f.eaten then f.eatenTime else f.lastRegenTime
  if f.regenDelay ≤ currentTime - lastTime ∧ f.remainingSlots < f.maxSlots then
    { foodRespawn f with lastRegenTime := currentTime }
  else f

/-- Repeated consumption: n calls of Food.eat at the same timestamp. -/
def foodEatN : ℕ → FoodItem → ℚ → FoodItem
  | 0, f, _ => f
  | n + 1, f, t => foodEatN n (foodEat f t).2 t

/-- Helper for C7: consuming as many times as there are remaining slots
drives remaining_slots to 0. -/
theorem foodEatN_drains (n : ℕ) : ∀ f : FoodItem, ∀ t : ℚ,
    f.eaten = false → f.remainingSlots = n → (foodEatN n f t).remainingSlots = 0 := by
  induction n with
  | zero => intro f t _ hr; simpa [foodEatN] using hr
  | succ k ih =>
    intro f t he hr
    have hguard : (f.eaten || f.remainingSlots = 0) = false := by
      simp [he, hr]
    by_cases hk : k = 0
    · subst hk
      simp [foodEatN, foodEat, hguard, hr, he]
    · have : (foodEat f t).2.remainingSlots = k := by
        simp [foodEat, hguard, hr, hk, he]
      have he2 : (foodEat f t).2.eaten = false := by
        simp [foodEat, hguard, hr, hk, he]
      simpa [foodEatN] using ih (foodEat f t).2 t he2 this

/-- Claim C7: consuming an exhausted food item returns None and changes
nothing; otherwise one consumption removes exactly one slot and returns
the species nutrition pair; consuming all slots drives remaining_slots
to 0; and once regen_delay has elapsed since the most recent
consumption, one regeneration update restores exactly one slot (not
all) and resets the timer baseline, so a second update within
regen_delay of the first regeneration changes nothing. -/
theorem C7_food_slots :
    (∀ (f : FoodItem) (t : ℚ), f.remainingSlots = 0 → foodEat f t = (none, f)) ∧
    (∀ (f : FoodItem) (t : ℚ), f.eaten = false → 0 < f.remainingSlots →
      (foodEat f t).1 = some (f.hungerGain, f.thirstGain) ∧
      (foodEat f t).2.remainingSlots = f.remainingSlots - 1) ∧
    (∀ (s : FoodSpecies) (t : ℚ),
      (foodEat (mkFood s) t).1 = some (speciesHungerGain s, speciesThirstGain s)) ∧
    (∀ (f : FoodItem) (t : ℚ), f.eaten = false →
      (foodEatN f.remainingSlots f t).remainingSlots = 0) ∧
    (∀ (f : FoodItem) (t : ℚ),
      f.remainingSlots < f.maxSlots →
      f.regenDelay ≤ t - (if f.eaten then f.eatenTime else f.lastRegenTime) →
      (foodRegenStep f t).remainingSlots = f.remainingSlots + 1 ∧
      (foodRegenStep f t).lastRegenTime = t ∧
      (foodRegenStep f t).eaten = false) ∧
    (∀ (f : FoodItem) (t t2 : ℚ),
      f.remainingSlots < f.maxSlots →
      f.regenDelay ≤ t - (if f.eaten then f.eatenTime else f.lastRegenTime) →
      t2 - t < f.regenDelay →
      foodRegenStep (foodRegenStep f t) t2 = foodRegenStep f t) := by
  have hregen : ∀ (f : FoodItem) (t : ℚ),
      f.remainingSlots < f.maxSlots →
      f.regenDelay ≤ t - (if f.eaten then f.eatenTime else f.lastRegenTime) →
      foodRegenStep f t =
        { f with remainingSlots := f.remainingSlots + 1, eatenTime := 0,
                 eaten := false, lastRegenTime := t } := by
    intro f t hslots hdelay
    have hmin : min f.maxSlots (f.remainingSlots + 1) = f.remainingSlots + 1 := by omega
    have hpos : 0 < min f.maxSlots (f.remainingSlots + 1) := by omega
    simp only [foodRegenStep, foodRespawn, if_pos (And.intro hdelay hslots), if_pos hpos, hmin]
    simp
  refine ⟨?_, ?_, ?_, ?_, ?_, ?_⟩
  · intro f t hr
    simp [foodEat, hr]
  · intro f t he hr
    have h0 : ¬ f.remainingSlots = 0 := by omega
    constructor
    · simp [foodEat, he, h0]
    · by_cases h1 : f.remainingSlots - 1 = 0 <;> simp [foodEat, he, h0, h1]
  · intro s t
    simp [foodEat, mkFood]
  · intro f t he
    exact foodEatN_drains f.remainingSlots f t he rfl
  · intro f t hslots hdelay
    rw [hregen f t hslots hdelay]
    exact ⟨rfl, rfl, rfl⟩
  · intro f t t2 hslots hdelay hearly
    rw [hregen f t hslots hdelay]
    have hno : ¬ (f.regenDelay ≤ t2 - t ∧ f.remainingSlots + 1 < f.maxSlots) := by
      intro hcon
      exact absurd hcon.1 (not_le.mpr hearly)
    simp only [foodRegenStep]
    simp [hno]

/-- Witness for C7 on a concrete cactus sprite: eating once at time 1
returns the cactus nutrition pair (8, 8) and leaves 2 slots, and a
regeneration update 20 seconds later on the partially eaten sprite
restores exactly one slot. -/
theorem C7_food_slots_witness :
    (foodEat (mkFood FoodSpecies.cactus) 1).1 = some (8, 8) ∧
    (foodRegenStep ((foodEat (mkFood FoodSpecies.cactus) 1).2) 21).remainingSlots = 3 := by
  constructor
  · have h := (C7_food_slots.2.2.1) FoodSpecies.cactus 1
    simpa [speciesHungerGain, speciesThirstGain] using h
  · have heat : (foodEat (mkFood FoodSpecies.cactus) 1).2.remainingSlots = 2 := by
      have h := ((C7_food_slots.2.1) (mkFood FoodSpecies.cactus) 1 rfl (by simp [mkFood])).2
      simpa [mkFood] using h
    have h2 := (C7_food_slots.2.2.2.2.1) ((foodEat (mkFood FoodSpecies.cactus) 1).2) 21
      (by simp [foodEat, mkFood]) (by norm_num [foodEat, mkFood, speciesRegenDelay])
    rw [h2.1, heat]

/-- Position in world coordinates. -/
structure Pos where
  x : ℚ
  y : ℚ
deriving Repr, DecidableEq

/-- Entity kinds bucketed by build_spatial_grid. -/
inductive EntityKind
  | creature
  | food
deriving Repr, DecidableEq

/-- One spatially indexed entity. -/
structure Entity where
  kind : EntityKind
  pos : Pos
deriving Repr, DecidableEq

/-- Embedding of get_grid_cell with GRID_SIZE = 50: floor division of both
coordinates by the cell size. -/
def gridCell (x y : ℚ) : ℤ × ℤ := (⌊x / 50⌋, ⌊y / 50⌋)

/-- Bucket lookup of the grid built by build_spatial_grid: the entities of
the given kind whose cell is the given cell, in insertion order. -/
def cellEntities (entities : List Entity) (kind : EntityKind) (cell : ℤ × ℤ) : List Entity :=
  entities.filter (fun e => decide (e.kind = kind ∧ gridCell e.pos.x e.pos.y = cell))

/-- Squared Euclidean distance; math.hypot(x1 - x2, y1 - y2) <= r agrees
with dist2 <= r^2 for r >= 0. -/
def dist2 (x1 y1 x2 y2 : ℚ) : ℚ := (x1 - x2) ^ 2 + (y1 - y2) ^ 2

/-- Embedding of get_neighbors(grid, x, y, kind, radius): scan the 3 by 3
block of cells around the query cell and keep the entities of the kind
within the radius. -/
def getNeighbors (entities : List Entity) (x y : ℚ) (kind : EntityKind) (radius : ℚ) :
    List Entity :=
  let c := gridCell x y
  (([-1, 0, 1] : List ℤ).flatMap fun dx =>
    ([-1, 0, 1] : List ℤ).flatMap fun dy =>
      (cellEntities entities kind (c.1 + dx, c.2 + dy)).filter fun e =>
        decide (dist2 e.pos.x e.pos.y x y ≤ radius ^ 2))

/-- Helper for C8: floor cells of points at most 50 apart differ by at
most one. -/
theorem floor_cell_close (a b : ℚ) (h : |a - b| ≤ 50) :
    ⌊b / 50⌋ - 1 ≤ ⌊a / 50⌋ ∧ ⌊a / 50⌋ ≤ ⌊b / 50⌋ + 1 := by
  have hlo : b - 50 ≤ a := by
    have := abs_le.mp h
    linarith [this.2]
  have hhi : a ≤ b + 50 := by
    have := abs_le.mp h
    linarith [this.1]
  constructor
  · have h1 : ⌊(b - 50) / 50⌋ ≤ ⌊a / 50⌋ := Int.floor_le_floor (by linarith)
    have h2 : (b - 50) / 50 = b / 50 + (-1 : ℤ) := by push_cast; ring
    rw [h2, Int.floor_add_int] at h1
    omega
  · have h1 : ⌊a / 50⌋ ≤ ⌊(b + 50) / 50⌋ := Int.floor_le_floor (by linarith)
    have h2 : (b + 50) / 50 = b / 50 + (1 : ℤ) := by push_cast; ring
    rw [h2, Int.floor_add_int] at h1
    omega

/-- Counterexample to claim C8: a creature at (101, 0) is at Euclidean
distance 101 from the query center (0, 0), within the caller radius 120
(vision radii go up to 120), but its cell (2, 0) is outside the fixed 3
by 3 neighborhood of cell (0, 0), so the query misses it and returns
the empty list. -/
theorem C8_counterexample :
    getNeighbors [⟨EntityKind.creature, ⟨101, 0⟩⟩] 0 0 EntityKind.creature 120 = [] ∧
    dist2 101 0 0 0 ≤ 120 ^ 2 ∧
    (0 : ℚ) ≤ 120 := by
  refine ⟨?_, by norm_num [dist2], by norm_num⟩
  have hcell : gridCell 101 0 = (2, 0) := by
    norm_num [gridCell]
  simp [getNeighbors, cellEntities, gridCell, hcell]
  norm_num

/-- Helper for C8: membership characterization of the neighbor query. -/
theorem getNeighbors_mem_iff (entities : List Entity) (x y radius : ℚ)
    (kind : EntityKind) (e : Entity) :
    e ∈ getNeighbors entities x y kind radius ↔
      e ∈ entities ∧ e.kind = kind ∧
      dist2 e.pos.x e.pos.y x y ≤ radius ^ 2 ∧
      |(gridCell e.pos.x e.pos.y).1 - (gridCell x y).1| ≤ 1 ∧
      |(gridCell e.pos.x e.pos.y).2 - (gridCell x y).2| ≤ 1 := by
  constructor
  · intro hmem
    simp only [getNeighbors, cellEntities, List.mem_flatMap, List.mem_filter,
      decide_eq_true_eq] at hmem
    obtain ⟨dx, hdx, dy, hdy, ⟨⟨hent, hkind, hcell⟩, hdist⟩⟩ := hmem
    have hdx3 : dx = -1 ∨ dx = 0 ∨ dx = 1 := by simpa using hdx
    have hdy3 : dy = -1 ∨ dy = 0 ∨ dy = 1 := by simpa using hdy
    have hc := Prod.ext_iff.mp hcell
    refine ⟨hent, hkind, hdist, ?_, ?_⟩
    · rw [hc.1, abs_le]
      omega
    · rw [hc.2, abs_le]
      omega
  · intro hyp
    obtain ⟨hent, hkind, hdist, hcx, hcy⟩ := hyp
    simp only [getNeighbors, cellEntities, List.mem_flatMap, List.mem_filter,
      decide_eq_true_eq]
    refine ⟨(gridCell e.pos.x e.pos.y).1 - (gridCell x y).1, ?_,
            (gridCell e.pos.x e.pos.y).2 - (gridCell x y).2, ?_,
            ⟨⟨hent, hkind, ?_⟩, hdist⟩⟩
    · have := abs_le.mp hcx
      simp only [List.mem_cons, List.mem_singleton, List.not_mem_nil, or_false]
      omega
    · have := abs_le.mp hcy
      simp only [List.mem_cons, List.mem_singleton, List.not_mem_nil, or_false]
      omega
    · rw [Prod.ext_iff]
      constructor <;> simp

/-- Claim C8 (amended): the neighbor query returns exactly the entities of
the requested kind that lie both within the radius (by true Euclidean
distance) and in the fixed 3 by 3 cell neighborhood of the query cell;
completeness over the whole radius therefore holds whenever the radius
is at most the 50-pixel cell size, but not for every caller radius
(vision reaches 120, see the counterexample); no ordering is
guaranteed and an empty result is valid. -/
theorem C8_neighbors_characterization (entities : List Entity) (x y radius : ℚ)
    (kind : EntityKind) (e : Entity) (hr0 : 0 ≤ radius) :
    (e ∈ getNeighbors entities x y kind radius ↔
      e ∈ entities ∧ e.kind = kind ∧
      dist2 e.pos.x e.pos.y x y ≤ radius ^ 2 ∧
      |(gridCell e.pos.x e.pos.y).1 - (gridCell x y).1| ≤ 1 ∧
      |(gridCell e.pos.x e.pos.y).2 - (gridCell x y).2| ≤ 1) ∧
    (radius ≤ 50 → e ∈ entities → e.kind = kind →
      dist2 e.pos.x e.pos.y x y ≤ radius ^ 2 →
      e ∈ getNeighbors entities x y kind radius) := by
  refine ⟨getNeighbors_mem_iff entities x y radius kind e, ?_⟩
  intro hr50 hent hkind hdist
  have hx2 : (e.pos.x - x) ^ 2 ≤ radius ^ 2 := by
    have h0 : 0 ≤ (e.pos.y - y) ^ 2 := sq_nonneg _
    unfold dist2 at hdist
    linarith
  have hy2 : (e.pos.y - y) ^ 2 ≤ radius ^ 2 := by
    have h0 : 0 ≤ (e.pos.x - x) ^ 2 := sq_nonneg _
    unfold dist2 at hdist
    linarith
  have hxabs : |e.pos.x - x| ≤ 50 := by
    rcases abs_cases (e.pos.x - x) with ⟨heq, _⟩ | ⟨heq, _⟩ <;> rw [heq] <;> nlinarith
  have hyabs : |e.pos.y - y| ≤ 50 := by
    rcases abs_cases (e.pos.y - y) with ⟨heq, _⟩ | ⟨heq, _⟩ <;> rw [heq] <;> nlinarith
  have hcx := floor_cell_close e.pos.x x hxabs
  have hcy := floor_cell_close e.pos.y y hyabs
  refine (getNeighbors_mem_iff entities x y radius kind e).mpr
    ⟨hent, hkind, hdist, ?_, ?_⟩
  · rw [abs_le]
    simp only [gridCell] at hcx ⊢
    omega
  · rw [abs_le]
    simp only [gridCell] at hcy ⊢
    omega

/-- Witness for C8: a creature at (30, 40), distance 50 from the origin,
is returned by a query of radius 50. -/
theorem C8_neighbors_characterization_witness :
    (⟨EntityKind.creature, ⟨30, 40⟩⟩ : Entity) ∈
      getNeighbors [⟨EntityKind.creature, ⟨30, 40⟩⟩] 0 0 EntityKind.creature 50 :=
  (C8_neighbors_characterization [⟨EntityKind.creature, ⟨30, 40⟩⟩] 0 0 50
      EntityKind.creature ⟨EntityKind.creature, ⟨30, 40⟩⟩ (by norm_num)).2
    (by norm_num) (List.mem_singleton.mpr rfl) rfl (by norm_num [dist2])

/-- Target chosen by the need-based selection block of Creature.update. -/
inductive SelTarget
  | food (p : Pos)
  | pond (p : Pos)
deriving Repr, DecidableEq

/-- Embedding of Creature.find_nearest on a plain list: keep the items in
vision range and take the first one of minimal distance (the semantics
of the Python min over the visible list). -/
def findNearestFood (x y : ℚ) (foodPositions : List Pos) (vision : ℚ) : Option Pos :=
  let visible := foodPositions.filter (fun p => decide (dist2 p.x p.y x y ≤ vision ^ 2))
  visible.foldl (fun best p =>
    match best with
    | none => some p
    | some q => if dist2 p.x p.y x y < dist2 q.x q.y x y then some p else some q) none

/-- Pond target gating in Creature.update: find_nearest_pond is consulted
only when thirst < 70, otherwise the pond target is None. -/
def pondTargetGate (thirst : ℚ) (pondNearest : Option Pos) : Option Pos :=
  if thirst < 70 then pondNearest else none

/-- Embedding of the need-based target selection of Creature.update: when
hungry or thirsty, prefer the food target if hunger < thirst and a food
is visible; otherwise fall back to the pond target, then to the food
target; outside the needy case no resource target is chosen here. -/
def selectTarget (hunger thirst : ℚ) (foodTarget pondTarget : Option Pos) : Option SelTarget :=
  if hunger < 70 ∨ thirst < 70 then
    if hunger < thirst then
      match foodTarget with
      | some f => some (SelTarget.food f)
      | none =>
        match pondTarget with
        | some p => some (SelTarget.pond p)
        | none => none
    else
      match pondTarget with
      | some p => some (SelTarget.pond p)
      | none =>
        match foodTarget with
        | some f => some (SelTarget.food f)
        | none => none
  else none

/-- Claim C9: whenever a creature needs resources (hunger < 70 or
thirst < 70), hunger < thirst, and a food item is visible, the food is
chosen as the target in preference to any pond; in particular, with
hunger 40 and thirst 90, a food at distance 5 within vision 50 and a
pond at distance 3, the selected target is the food even though the
pond is closer (the pond target is not even consulted at thirst 90). -/
theorem C9_target_prefers_food (hunger thirst : ℚ) (foodTarget pondTarget : Option Pos)
    (f : Pos) (hneed : hunger < 70 ∨ thirst < 70) (hlt : hunger < thirst)
    (hf : foodTarget = some f) :
    selectTarget hunger thirst foodTarget pondTarget = some (SelTarget.food f) ∧
    findNearestFood 0 0 [⟨5, 0⟩] 50 = some ⟨5, 0⟩ ∧
    selectTarget 40 90 (findNearestFood 0 0 [⟨5, 0⟩] 50) (pondTargetGate 90 (some ⟨3, 0⟩)) =
      some (SelTarget.food ⟨5, 0⟩) := by
  refine ⟨?_, ?_, ?_⟩
  · simp only [selectTarget, if_pos hneed, if_pos hlt, hf]
  · norm_num [findNearestFood, dist2]
  · norm_num [findNearestFood, dist2, pondTargetGate, selectTarget]

/-- Witness for C9 at the concrete scenario of the claim. -/
theorem C9_target_prefers_food_witness :
    selectTarget 40 90 (some ⟨5, 0⟩) none = some (SelTarget.food ⟨5, 0⟩) :=
  (C9_target_prefers_food 40 90 (some ⟨5, 0⟩) none ⟨5, 0⟩ (Or.inl (by norm_num))
    (by norm_num) rfl).1

/-- Mutation catalog entries needed by the embedded hooks (a subset of the
MUTATIONS dictionary of mutations.py). -/
inductive Mut
  | packMentality
  | immortal
  | cannibal
  | radioactive
  | ethereal
  | pregnancyHunter
  | fragmentedDna
  | rageState
  | bloodFrenzy
  | thermalCore
  | broodSac
  | colorPulse
  | parasiticWomb
  | nullCore
  | boneSpikes
  | venomGlands
  | loyalMate
  | twinGene
  | slipperySkin
  | dominant
deriving Repr, DecidableEq

/-- Rage State phases; the Python strings are none, rage and exhausted. -/
inductive RagePhase
  | calm
  | raging
  | exhausted
deriving Repr, DecidableEq

/-- Rage State per-creature runtime fields (_rage_state, _rage_timer,
_rage_cooldown). -/
structure RageData where
  phase : RagePhase
  timer : ℤ
  cooldown : ℤ
deriving Repr, DecidableEq

/-- Embedding of handle_rage_state from mutations.py: without the
mutation it resets the phase and returns neutral multipliers; with it,
rage starts when health < 30 percent of max off cooldown (10 s rage,
15 s cooldown), rage decays to a 5 s exhausted phase, and the returned
(attack, speed, aggression) multipliers are 2.0 in rage, 0.5 when
exhausted and 1.0 otherwise. The function is called unconditionally by
Creature.update. -/
def handleRageState (muts : List Mut) (r : RageData) (health maxHealth : ℚ) (now : ℤ) :
    RageData × (ℚ × ℚ × ℚ) :=
  if ¬ (Mut.rageState ∈ muts) then ({ r with phase := RagePhase.calm }, (1, 1, 1))
  else
    let r1 := if r.phase = RagePhase.calm ∧ health < 3 / 10 * maxHealth ∧ r.cooldown < now then
        { phase := RagePhase.raging, timer := now + 10000, cooldown := now + 15000 }
      else r
    let r2 := if r1.phase = RagePhase.raging ∧ r1.timer < now then
        { r1 with phase := RagePhase.exhausted, timer := now + 5000 }
      else r1
    let r3 := if r2.phase = RagePhase.exhausted ∧ r2.timer < now then
        { r2 with phase := RagePhase.calm }
      else r2
    if r3.phase = RagePhase.raging then (r3, (2, 2, 2))
    else if r3.phase = RagePhase.exhausted then (r3, (1 / 2, 1 / 2, 1 / 2))
    else (r3, (1, 1, 1))

/-- Embedding of null_core_suppresses from mutations.py: true when the
creature carries Null Core and the queried hook is not Null Core
itself. The source defines this helper and instructs every handler to
call it, but no handler and no update call site does. -/
def nullCoreSuppresses (muts : List Mut) (mutName : Option Mut) : Bool :=
  if Mut.nullCore ∈ muts then
    match mutName with
    | none => true
    | some m => decide (m ≠ Mut.nullCore)
  else false

/-- Claim C4 is refuted by the code: for a creature carrying Null Core and
Rage State, the suppression predicate null_core_suppresses says the
Rage State hook must be suppressed, yet handle_rage_state (invoked
unconditionally by Creature.update) still enters the rage phase and
returns the 2.0 stat multipliers at a concrete low-health input, so a
per-tick mutation hook other than Null Core does affect the creature. -/
theorem C4_null_core_not_enforced :
    nullCoreSuppresses [Mut.nullCore, Mut.rageState] (some Mut.rageState) = true ∧
    (handleRageState [Mut.nullCore, Mut.rageState] ⟨RagePhase.calm, 0, 0⟩ 1 100 5).2 =
      (2, 2, 2) ∧
    (handleRageState [Mut.nullCore, Mut.rageState] ⟨RagePhase.calm, 0, 0⟩ 1 100 5).1.phase =
      RagePhase.raging ∧
    (handleRageState [Mut.rageState] ⟨RagePhase.calm, 0, 0⟩ 1 100 5).2 =
      (handleRageState [Mut.nullCore, Mut.rageState] ⟨RagePhase.calm, 0, 0⟩ 1 100 5).2 := by
  refine ⟨by decide, ?_, ?_, ?_⟩ <;>
    norm_num [handleRageState]

/-- Sex of a creature. -/
inductive Sex
  | M
  | F
deriving Repr, DecidableEq

/-- Embedding of the guard sequence and damage application of
Creature.random_attack for one candidate victim. The docstring-adjacent
comment in the source says the attack must be skipped if the attacker
is a child or pregnant, but the code only checks the child condition
(age below 10 percent of max_age); the sex and gestationTimer
arguments, which determine pregnancy (sex = F and now <
gestation_timer), are never consulted. The guards in order: the 2
minute amnesty window, the child check, Ethereal on either side, a
burrowed victim, the Slippery Skin evasion roll, the vision-range
check, and the aggression roll (attack when the uniform [0,1) draw is
below effective_aggression * 0.1). On an attack, damage
= max(0, effective_attack - defense) is subtracted from the victim
when positive. The attack-failed retaliation branch is not modelled;
the returned pair is the victim health and whether damage landed. -/
def randomAttack (now simStart : ℤ) (sex : Sex) (gestationTimer : ℤ)
    (age maxAge vision : ℚ) (selfMuts otherMuts : List Mut)
    (otherBurrowed slipperyEvadeRoll : Bool) (distSq : ℚ)
    (effAggression attackRoll : ℚ) (effAttack otherDefense otherHealth : ℚ) : ℚ × Bool :=
  if now - simStart < 120000 then (otherHealth, false)
  else if age / maxAge < 1 / 10 then (otherHealth, false)
  else if Mut.ethereal ∈ selfMuts ∨ Mut.ethereal ∈ otherMuts then (otherHealth, false)
  else if otherBurrowed then (otherHealth, false)
  else if Mut.slipperySkin ∈ otherMuts ∧ slipperyEvadeRoll then (otherHealth, false)
  else if ¬ (distSq ≤ vision ^ 2) then (otherHealth, false)
  else if attackRoll < effAggression * (1 / 10) then
    if 0 < damage effAttack otherDefense then
      (otherHealth - damage effAttack otherDefense, true)
    else (otherHealth, false)
  else (otherHealth, false)

/-- Claim C5 is refuted by the code: random_attack ignores pregnancy. The
result is identical for every sex and gestation timer (first
conjunct, proved definitionally), and at a concrete input describing a
pregnant female (sex F, now 200000 well inside the gestation window
ending at 999999999) past the amnesty and child checks, the ambient
random attack still lands, dealing positive damage to the victim,
although the source comment says a pregnant creature must be skipped. -/
theorem C5_pregnant_random_attack_bug :
    (∀ (sex1 sex2 : Sex) (g1 g2 : ℤ),
      randomAttack 200000 0 sex1 g1 50 100 50 [] [] false false 100 1 0 5 1 3 =
      randomAttack 200000 0 sex2 g2 50 100 50 [] [] false false 100 1 0 5 1 3) ∧
    200000 < (999999999 : ℤ) ∧
    randomAttack 200000 0 Sex.F 999999999 50 100 50 [] [] false false 100 1 0 5 1 3 =
      (-1, true) := by
  refine ⟨fun sex1 sex2 g1 g2 => rfl, by norm_num, ?_⟩
  norm_num [randomAttack, damage]

/-- Survival stats of one creature, the fields governed by the claimed
invariants. -/
structure CreatureStats where
  hunger : ℚ
  thirst : ℚ
  health : ℚ
  maxHealth : ℚ
  age : ℚ
  maxAge : ℚ
deriving Repr, DecidableEq

/-- Per-tick inputs of one Creature.update call that are external to the
survival stats: the frame time, the creature speed, the pregnancy
flag, which control-flow branch the surroundings select (a
Hyperaware/Paranoia flee threat, a burrow, the no-target seek returns),
whether a food or pond is in eating or drinking range, and the
aggregate stat deltas applied by the combat blocks (damage taken in
contact combat, a Cannibal heal after a kill, retaliation damage taken
inside random_attack, and the reproduction cost). The damage and cost
aggregates are nonnegative in the source (damage and retaliation are
floored at 0, the cost is offspring_count * 10). -/
structure UpdateEnv where
  dt : ℚ
  speed : ℚ
  isPregnant : Bool
  fleeThreat : Bool
  burrowed : Bool
  seekResourceReturn : Bool
  seekMateReturn : Bool
  foodInReach : Bool
  pondInReach : Bool
  combatSelfDamage : ℚ
  cannibalHeal : Bool
  randomAttackSelfDamage : ℚ
  reproCost : ℚ
deriving Repr, DecidableEq

/-- Effect of Creature.eat when a food is in range: hunger up by
FOOD_VALUE = 30 capped at 100, health up by 5 capped at max_health. -/
def applyEatEffect (s : CreatureStats) (inReach : Bool) : CreatureStats :=
  if inReach then
    { s with hunger := min 100 (s.hunger + 30), health := min s.maxHealth (s.health + 5) }
  else s

/-- Effect of Creature.drink_from_pond when inside a pond: thirst up by
WATER_VALUE = 30 capped at 100, health up by 5 capped at max_health. -/
def applyDrinkEffect (s : CreatureStats) (inReach : Bool) : CreatureStats :=
  if inReach then
    { s with thirst := min 100 (s.thirst + 30), health := min s.maxHealth (s.health + 5) }
  else s

/-- Hunger and thirst cost of a successful mating in Creature.reproduce,
floored at 0 as in the source. -/
def applyReproCost (s : CreatureStats) (cost : ℚ) : CreatureStats :=
  { s with hunger := max 0 (s.hunger - cost), thirst := max 0 (s.thirst - cost) }

/-- Age advance and hunger/thirst drain at the top of Creature.update:
age += clock.get_time(); hunger -= 0.02 * drain_multiplier * speed and
thirst -= 0.025 * drain_multiplier * speed, with drain_multiplier 1.3
when pregnant and 1.0 otherwise. -/
def drainStage (s : CreatureStats) (e : UpdateEnv) : CreatureStats :=
  { s with age := s.age + e.dt,
           hunger := s.hunger - 1 / 50 * (if e.isPregnant then (13 : ℚ) / 10 else 1) * e.speed,
           thirst := s.thirst - 1 / 40 * (if e.isPregnant then (13 : ℚ) / 10 else 1) * e.speed }

/-- Stat effects on the focal creature of the contested-combat loop of
Creature.update: aggregate retaliation damage taken, then the Cannibal
heal (hunger +50 capped at 100, health +30 capped at max_health) when a
kill by a Cannibal happened. -/
def combatStage (s : CreatureStats) (e : UpdateEnv) : CreatureStats :=
  let s2 := { s with health := s.health - e.combatSelfDamage }
  if e.cannibalHeal then
    { s2 with hunger := min 100 (s2.hunger + 50),
              health := min s2.maxHealth (s2.health + 30) }
  else s2

/-- Final clamps of Creature.update: health, hunger and thirst are
clamped to a minimum of 0 after all effects. -/
def clampStage (t : CreatureStats) : CreatureStats :=
  { t with hunger := max 0 t.hunger, thirst := max 0 t.thirst, health := max 0 t.health }

/-- Tail of the main path of Creature.update: retaliation damage inside
random_attack, eating gated on hunger < 100, drinking gated on
thirst < 100, the reproduction cost, and the final clamps. -/
def mainTailStage (s : CreatureStats) (e : UpdateEnv) : CreatureStats :=
  let s4 := { s with health := s.health - e.randomAttackSelfDamage }
  let s5 := applyEatEffect s4 (e.foodInReach && decide (s4.hunger < 100))
  let s6 := applyDrinkEffect s5 (e.pondInReach && decide (s5.thirst < 100))
  clampStage (applyReproCost s6 e.reproCost)

/-- Embedding of the survival-stat flow of Creature.update, following the
control flow of the source: age advance and hunger/thirst drain; the
Hyperaware/Paranoia flee path that returns alive immediately; the
death checks (health <= 0, age >= max_age, hunger <= 0 or thirst <= 0)
whose firing returns dead, which the main loop turns into same-tick
removal; the burrow path (eat and reproduce only); the two seek early
returns; and the main path with contact combat, a mid-path death
check, and the eat/drink/reproduce/clamp tail. -/
def creatureUpdate (s : CreatureStats) (e : UpdateEnv) : Bool × CreatureStats :=
  let s1 := drainStage s e
  if e.fleeThreat then (true, s1)
  else if s1.health ≤ 0 then (false, s1)
  else if s1.maxAge ≤ s1.age then (false, { s1 with health := 0 })
  else if s1.hunger ≤ 0 ∨ s1.thirst ≤ 0 then (false, { s1 with health := 0 })
  else if e.burrowed then (true, applyReproCost (applyEatEffect s1 e.foodInReach) e.reproCost)
  else if e.seekResourceReturn then (true, s1)
  else if e.seekMateReturn then (true, s1)
  else
    let s3 := combatStage s1 e
    if s3.health ≤ 0 then (false, s3)
    else (true, mainTailStage s3 e)

/-- Concrete creature for the C1 counterexample: healthy but with hunger
almost exhausted. -/
def fleeBugStats : CreatureStats :=
  { hunger := 1 / 100, thirst := 50, health := 10, maxHealth := 10, age := 0,
    maxAge := 1000000 }

/-- Concrete environment for the C1 counterexample: a Hyperaware or
Paranoia threat is in sight, so the update takes the flee path. -/
def fleeBugEnv : UpdateEnv :=
  { dt := 16, speed := 1, isPregnant := false, fleeThreat := true, burrowed := false,
    seekResourceReturn := false, seekMateReturn := false, foodInReach := false,
    pondInReach := false, combatSelfDamage := 0, cannibalHeal := false,
    randomAttackSelfDamage := 0, reproCost := 0 }

/-- Counterexample to claim C1: starting from well-formed stats (hunger
0.01, all bounds satisfied), one update on the Hyperaware/Paranoia
flee path drains hunger below 0 and still returns alive, so the
creature stays in the active set with hunger outside [0, 100] and its
hunger <= 0 death condition is not acted on this tick. -/
theorem C1_counterexample :
    0 ≤ fleeBugStats.hunger ∧ fleeBugStats.hunger ≤ 100 ∧
    0 ≤ fleeBugStats.thirst ∧ fleeBugStats.thirst ≤ 100 ∧
    0 ≤ fleeBugStats.health ∧ fleeBugStats.health ≤ fleeBugStats.maxHealth ∧
    (creatureUpdate fleeBugStats fleeBugEnv).1 = true ∧
    (creatureUpdate fleeBugStats fleeBugEnv).2.hunger < 0 := by
  norm_num [fleeBugStats, fleeBugEnv, creatureUpdate, drainStage]

/-- Helper for C1: bounds preserved by the eating effect. -/
theorem applyEatEffect_bounds (s : CreatureStats) (b : Bool)
    (hH1 : s.hunger ≤ 100) (hHe1 : s.health ≤ s.maxHealth) :
    s.hunger ≤ (applyEatEffect s b).hunger ∧ (applyEatEffect s b).hunger ≤ 100 ∧
    s.health ≤ (applyEatEffect s b).health ∧ (applyEatEffect s b).health ≤ s.maxHealth ∧
    (applyEatEffect s b).thirst = s.thirst ∧
    (applyEatEffect s b).maxHealth = s.maxHealth ∧
    (applyEatEffect s b).age = s.age ∧ (applyEatEffect s b).maxAge = s.maxAge := by
  cases b
  · simp [applyEatEffect, hH1, hHe1]
  · exact ⟨le_min hH1 (by linarith), min_le_left _ _,
           le_min hHe1 (by linarith), min_le_left _ _, rfl, rfl, rfl, rfl⟩

/-- Helper for C1: bounds preserved by the drinking effect. -/
theorem applyDrinkEffect_bounds (s : CreatureStats) (b : Bool)
    (hT1 : s.thirst ≤ 100) (hHe1 : s.health ≤ s.maxHealth) :
    s.thirst ≤ (applyDrinkEffect s b).thirst ∧ (applyDrinkEffect s b).thirst ≤ 100 ∧
    s.health ≤ (applyDrinkEffect s b).health ∧ (applyDrinkEffect s b).health ≤ s.maxHealth ∧
    (applyDrinkEffect s b).hunger = s.hunger ∧
    (applyDrinkEffect s b).maxHealth = s.maxHealth ∧
    (applyDrinkEffect s b).age = s.age ∧ (applyDrinkEffect s b).maxAge = s.maxAge := by
  cases b
  · simp [applyDrinkEffect, hT1, hHe1]
  · exact ⟨le_min hT1 (by linarith), min_le_left _ _,
           le_min hHe1 (by linarith), min_le_left _ _, rfl, rfl, rfl, rfl⟩

/-- Helper for C1: facts about the combat stage. -/
theorem combatStage_facts (s : CreatureStats) (e : UpdateEnv)
    (hH1 : s.hunger ≤ 100) (hHe1 : s.health ≤ s.maxHealth)
    (hcd : 0 ≤ e.combatSelfDamage) :
    (combatStage s e).hunger ≤ 100 ∧
    (combatStage s e).thirst = s.thirst ∧
    (combatStage s e).health ≤ s.maxHealth ∧
    (combatStage s e).maxHealth = s.maxHealth ∧
    (combatStage s e).age = s.age ∧
    (combatStage s e).maxAge = s.maxAge := by
  by_cases hc : e.cannibalHeal
  · have hcc : combatStage s e =
        { s with hunger := min 100 (s.hunger + 50),
                 health := min s.maxHealth (s.health - e.combatSelfDamage + 30) } := by
      simp [combatStage, hc]
    rw [hcc]
    exact ⟨min_le_left _ _, rfl, min_le_left _ _, rfl, rfl, rfl⟩
  · have hcc : combatStage s e = { s with health := s.health - e.combatSelfDamage } := by
      simp [combatStage, hc]
    rw [hcc]
    exact ⟨hH1, rfl, by simp; linarith, rfl, rfl, rfl⟩

/-- Helper for C1: the reproduction cost followed by the final clamps
lands in the well-formed stat region. -/
theorem clampRepro_wf (t : CreatureStats) (c M : ℚ)
    (hhu : t.hunger ≤ 100) (hth : t.thirst ≤ 100) (hhe : t.health ≤ M)
    (hM : 0 ≤ M) (hmh : t.maxHealth = M) (hc : 0 ≤ c) :
    0 ≤ (clampStage (applyReproCost t c)).hunger ∧
    (clampStage (applyReproCost t c)).hunger ≤ 100 ∧
    0 ≤ (clampStage (applyReproCost t c)).thirst ∧
    (clampStage (applyReproCost t c)).thirst ≤ 100 ∧
    0 ≤ (clampStage (applyReproCost t c)).health ∧
    (clampStage (applyReproCost t c)).health ≤ M ∧
    (clampStage (applyReproCost t c)).maxHealth = M ∧
    (clampStage (applyReproCost t c)).age = t.age ∧
    (clampStage (applyReproCost t c)).maxAge = t.maxAge := by
  refine ⟨le_max_left _ _, ?_, le_max_left _ _, ?_, le_max_left _ _, ?_, hmh, rfl, rfl⟩
  · exact max_le (by norm_num) (max_le (by norm_num) (by linarith))
  · exact max_le (by norm_num) (max_le (by norm_num) (by linarith))
  · exact max_le hM hhe

/-- Helper for C1: the tail of the main update path lands in the
well-formed stat region. -/
theorem mainTailStage_wf (s : CreatureStats) (e : UpdateEnv)
    (hH1 : s.hunger ≤ 100) (hT1 : s.thirst ≤ 100)
    (hHe1 : s.health ≤ s.maxHealth) (hmh0 : 0 ≤ s.maxHealth)
    (hrd : 0 ≤ e.randomAttackSelfDamage) (hrc : 0 ≤ e.reproCost) :
    0 ≤ (mainTailStage s e).hunger ∧ (mainTailStage s e).hunger ≤ 100 ∧
    0 ≤ (mainTailStage s e).thirst ∧ (mainTailStage s e).thirst ≤ 100 ∧
    0 ≤ (mainTailStage s e).health ∧ (mainTailStage s e).health ≤ s.maxHealth ∧
    (mainTailStage s e).maxHealth = s.maxHealth ∧
    (mainTailStage s e).age = s.age ∧ (mainTailStage s e).maxAge = s.maxAge := by
  unfold mainTailStage
  set s4 : CreatureStats := { s with health := s.health - e.randomAttackSelfDamage } with hs4
  have h4He1 : s4.health ≤ s4.maxHealth := by simp [hs4]; linarith
  obtain ⟨a1, a2, a3, a4, a5, a6, a7, a8⟩ :=
    applyEatEffect_bounds s4 (e.foodInReach && decide (s4.hunger < 100)) hH1 h4He1
  set s5 := applyEatEffect s4 (e.foodInReach && decide (s4.hunger < 100)) with hs5
  have h5T1 : s5.thirst ≤ 100 := by rw [a5]; exact hT1
  have h5He1 : s5.health ≤ s5.maxHealth := by rw [a6]; exact a4
  obtain ⟨b1, b2, b3, b4, b5, b6, b7, b8⟩ :=
    applyDrinkEffect_bounds s5 (e.pondInReach && decide (s5.thirst < 100)) h5T1 h5He1
  set s6 := applyDrinkEffect s5 (e.pondInReach && decide (s5.thirst < 100)) with hs6
  have h6mh : s6.maxHealth = s.maxHealth := by rw [b6, a6]
  have h6hu : s6.hunger ≤ 100 := by rw [b5]; exact a2
  have h6he : s6.health ≤ s.maxHealth := le_trans b4 (le_of_eq a6)
  have h6age : s6.age = s.age := by rw [b7, a7]
  have h6ma : s6.maxAge = s.maxAge := by rw [b8, a8]
  have hfin := clampRepro_wf s6 e.reproCost s.maxHealth h6hu b2 h6he hmh0 h6mh hrc
  rw [h6age] at hfin
  rw [h6ma] at hfin
  exact hfin

/-- Claim C1 (amended): through one Creature.update call, age never
decreases and max_health and max_age are unchanged on every path; on
every path except the Hyperaware/Paranoia flee early-return, a
creature that stays in the active set ends its update with hunger and
thirst in [0, 100] and health in [0, max_health] (given well-formed
stats on entry), and each death condition detected by the update
(health <= 0 on entry, age >= max_age after aging, hunger <= 0 or
thirst <= 0 after the drain) makes the update return dead, which the
main loop turns into removal in the same tick; on the flee path,
however, the update returns alive unconditionally, with hunger and
thirst drained but not clamped and with no death check run (see the
counterexample). -/
theorem C1_invariants_amended (s : CreatureStats) (e : UpdateEnv)
    (hdt : 0 ≤ e.dt) (hspeed : 0 ≤ e.speed)
    (hH0 : 0 ≤ s.hunger) (hH1 : s.hunger ≤ 100)
    (hT0 : 0 ≤ s.thirst) (hT1 : s.thirst ≤ 100)
    (hHe0 : 0 ≤ s.health) (hHe1 : s.health ≤ s.maxHealth)
    (hcd : 0 ≤ e.combatSelfDamage) (hrd : 0 ≤ e.randomAttackSelfDamage)
    (hrc : 0 ≤ e.reproCost) :
    s.age ≤ (creatureUpdate s e).2.age ∧
    (creatureUpdate s e).2.maxHealth = s.maxHealth ∧
    (creatureUpdate s e).2.maxAge = s.maxAge ∧
    (e.fleeThreat = false → (creatureUpdate s e).1 = true →
      0 ≤ (creatureUpdate s e).2.hunger ∧ (creatureUpdate s e).2.hunger ≤ 100 ∧
      0 ≤ (creatureUpdate s e).2.thirst ∧ (creatureUpdate s e).2.thirst ≤ 100 ∧
      0 ≤ (creatureUpdate s e).2.health ∧ (creatureUpdate s e).2.health ≤ s.maxHealth) ∧
    (e.fleeThreat = false → s.health ≤ 0 → (creatureUpdate s e).1 = false) ∧
    (e.fleeThreat = false → s.maxAge ≤ s.age + e.dt → (creatureUpdate s e).1 = false) ∧
    (e.fleeThreat = false →
      (drainStage s e).hunger ≤ 0 ∨ (drainStage s e).thirst ≤ 0 →
      (creatureUpdate s e).1 = false) ∧
    (e.fleeThreat = true → (creatureUpdate s e).1 = true) := by
  have hmult0 : (0 : ℚ) ≤ (if e.isPregnant then (13 : ℚ) / 10 else 1) := by
    split_ifs <;> norm_num
  have hdH : 0 ≤ 1 / 50 * (if e.isPregnant then (13 : ℚ) / 10 else 1) * e.speed :=
    mul_nonneg (mul_nonneg (by norm_num) hmult0) hspeed
  have hdT : 0 ≤ 1 / 40 * (if e.isPregnant then (13 : ℚ) / 10 else 1) * e.speed :=
    mul_nonneg (mul_nonneg (by norm_num) hmult0) hspeed
  have hmh0 : (0 : ℚ) ≤ s.maxHealth := le_trans hHe0 hHe1
  have d_age : (drainStage s e).age = s.age + e.dt := rfl
  have d_h : (drainStage s e).health = s.health := rfl
  have d_mh : (drainStage s e).maxHealth = s.maxHealth := rfl
  have d_ma : (drainStage s e).maxAge = s.maxAge := rfl
  have d_hu_le : (drainStage s e).hunger ≤ s.hunger := by
    show s.hunger - 1 / 50 * (if e.isPregnant then (13 : ℚ) / 10 else 1) * e.speed ≤ s.hunger
    linarith
  have d_th_le : (drainStage s e).thirst ≤ s.thirst := by
    show s.thirst - 1 / 40 * (if e.isPregnant then (13 : ℚ) / 10 else 1) * e.speed ≤ s.thirst
    linarith
  have d_hu100 : (drainStage s e).hunger ≤ 100 := le_trans d_hu_le hH1
  have d_th100 : (drainStage s e).thirst ≤ 100 := le_trans d_th_le hT1
  have d_he1 : (drainStage s e).health ≤ (drainStage s e).maxHealth := by
    rw [d_h, d_mh]; exact hHe1
  by_cases hf : e.fleeThreat
  · have hu : creatureUpdate s e = (true, drainStage s e) := by
      simp [creatureUpdate, hf]
    rw [hu]
    refine ⟨by rw [d_age]; linarith, d_mh, d_ma, ?_, ?_, ?_, ?_, fun _ => rfl⟩ <;>
      exact fun hff => by simp [hff] at hf
  · have hf0 : e.fleeThreat = false := by simpa using hf
    by_cases h2 : (drainStage s e).health ≤ 0
    · have hu : creatureUpdate s e = (false, drainStage s e) := by
        simp [creatureUpdate, hf0, h2]
      rw [hu]
      refine ⟨by rw [d_age]; linarith, d_mh, d_ma, ?_, fun _ _ => rfl, fun _ _ => rfl,
        fun _ _ => rfl, ?_⟩
      · exact fun _ htrue => by simp at htrue
      · exact fun hft => by simp [hf0] at hft
    · by_cases h3 : (drainStage s e).maxAge ≤ (drainStage s e).age
      · have hu : creatureUpdate s e = (false, { drainStage s e with health := 0 }) := by
          simp [creatureUpdate, hf0, h2, h3]
        rw [hu]
        refine ⟨by show s.age ≤ (drainStage s e).age; rw [d_age]; linarith, d_mh, d_ma, ?_,
          fun _ _ => rfl, fun _ _ => rfl, fun _ _ => rfl, ?_⟩
        · exact fun _ htrue => by simp at htrue
        · exact fun hft => by simp [hf0] at hft
      · by_cases h4 : (drainStage s e).hunger ≤ 0 ∨ (drainStage s e).thirst ≤ 0
        · have hu : creatureUpdate s e = (false, { drainStage s e with health := 0 }) := by
            simp [creatureUpdate, hf0, h2, h3, h4]
          rw [hu]
          refine ⟨by show s.age ≤ (drainStage s e).age; rw [d_age]; linarith, d_mh, d_ma, ?_,
            fun _ _ => rfl, fun _ _ => rfl, fun _ _ => rfl, ?_⟩
          · exact fun _ htrue => by simp at htrue
          · exact fun hft => by simp [hf0] at hft
        · have hh4 := not_or.mp h4
          have hhu0 : 0 < (drainStage s e).hunger := lt_of_not_le hh4.1
          have hth0 : 0 < (drainStage s e).thirst := lt_of_not_le hh4.2
          have hhe0 : 0 < (drainStage s e).health := lt_of_not_le h2
          by_cases hb : e.burrowed
          · have hu : creatureUpdate s e =
                (true, applyReproCost (applyEatEffect (drainStage s e) e.foodInReach)
                  e.reproCost) := by
              simp [creatureUpdate, hf0, h2, h3, h4, hb]
            obtain ⟨a1, a2, a3, a4, a5, a6, a7, a8⟩ :=
              applyEatEffect_bounds (drainStage s e) e.foodInReach d_hu100 d_he1
            rw [hu]
            refine ⟨?_, ?_, ?_, ?_, ?_, ?_, ?_, ?_⟩
            · show s.age ≤ (applyEatEffect (drainStage s e) e.foodInReach).age
              rw [a7, d_age]; linarith
            · show (applyEatEffect (drainStage s e) e.foodInReach).maxHealth = s.maxHealth
              rw [a6, d_mh]
            · show (applyEatEffect (drainStage s e) e.foodInReach).maxAge = s.maxAge
              rw [a8, d_ma]
            · intro _ _
              refine ⟨le_max_left _ _, max_le (by norm_num) (by linarith), le_max_left _ _,
                max_le (by norm_num) ?_, ?_, ?_⟩
              · have : (applyEatEffect (drainStage s e) e.foodInReach).thirst =
                    (drainStage s e).thirst := a5
                linarith
              · show (0:ℚ) ≤ (applyEatEffect (drainStage s e) e.foodInReach).health
                linarith
              · show (applyEatEffect (drainStage s e) e.foodInReach).health ≤ s.maxHealth
                rw [← d_mh]; exact a4
            · exact fun _ hsh => absurd hsh h2
            · exact fun _ hag => absurd hag h3
            · exact fun _ hd => absurd hd h4
            · exact fun hft => by simp [hf0] at hft
          · by_cases hsr : e.seekResourceReturn
            · have hu : creatureUpdate s e = (true, drainStage s e) := by
                simp [creatureUpdate, hf0, h2, h3, h4, hb, hsr]
              rw [hu]
              refine ⟨by rw [d_age]; linarith, d_mh, d_ma, ?_, ?_, ?_, ?_, ?_⟩
              · exact fun _ _ => ⟨le_of_lt hhu0, d_hu100, le_of_lt hth0, d_th100,
                  le_of_lt hhe0, by rw [← d_mh]; exact d_he1⟩
              · exact fun _ hsh => absurd hsh h2
              · exact fun _ hag => absurd hag h3
              · exact fun _ hd => absurd hd h4
              · exact fun hft => by simp [hf0] at hft
            · by_cases hsm : e.seekMateReturn
              · have hu : creatureUpdate s e = (true, drainStage s e) := by
                  simp [creatureUpdate, hf0, h2, h3, h4, hb, hsr, hsm]
                rw [hu]
                refine ⟨by rw [d_age]; linarith, d_mh, d_ma, ?_, ?_, ?_, ?_, ?_⟩
                · exact fun _ _ => ⟨le_of_lt hhu0, d_hu100, le_of_lt hth0, d_th100,
                    le_of_lt hhe0, by rw [← d_mh]; exact d_he1⟩
                · exact fun _ hsh => absurd hsh h2
                · exact fun _ hag => absurd hag h3
                · exact fun _ hd => absurd hd h4
                · exact fun hft => by simp [hf0] at hft
              · obtain ⟨c1, c2, c3, c4, c5, c6⟩ :=
                  combatStage_facts (drainStage s e) e d_hu100 d_he1 hcd
                by_cases h8 : (combatStage (drainStage s e) e).health ≤ 0
                · have hu : creatureUpdate s e = (false, combatStage (drainStage s e) e) := by
                    simp [creatureUpdate, hf0, h2, h3, h4, hb, hsr, hsm, h8]
                  rw [hu]
                  refine ⟨?_, ?_, ?_, ?_, fun _ _ => rfl, fun _ _ => rfl, fun _ _ => rfl, ?_⟩
                  · rw [c5, d_age]; linarith
                  · rw [c4, d_mh]
                  · rw [c6, d_ma]
                  · exact fun _ htrue => by simp at htrue
                  · exact fun hft => by simp [hf0] at hft
                · have hu : creatureUpdate s e =
                      (true, mainTailStage (combatStage (drainStage s e) e) e) := by
                    simp [creatureUpdate, hf0, h2, h3, h4, hb, hsr, hsm, h8]
                  have cth100 : (combatStage (drainStage s e) e).thirst ≤ 100 := by
                    rw [c2]; exact d_th100
                  have che1 : (combatStage (drainStage s e) e).health ≤
                      (combatStage (drainStage s e) e).maxHealth := by
                    rw [c4]; exact c3
                  have cmh0 : 0 ≤ (combatStage (drainStage s e) e).maxHealth := by
                    rw [c4, d_mh]; exact hmh0
                  obtain ⟨m1, m2, m3, m4, m5, m6, m7, m8, m9⟩ :=
                    mainTailStage_wf (combatStage (drainStage s e) e) e c1 cth100 che1 cmh0
                      hrd hrc
                  rw [hu]
                  refine ⟨?_, ?_, ?_, ?_, ?_, ?_, ?_, ?_⟩
                  · show s.age ≤ (mainTailStage (combatStage (drainStage s e) e) e).age
                    rw [m8, c5, d_age]; linarith
                  · show (mainTailStage (combatStage (drainStage s e) e) e).maxHealth =
                      s.maxHealth
                    rw [m7, c4, d_mh]
                  · show (mainTailStage (combatStage (drainStage s e) e) e).maxAge = s.maxAge
                    rw [m9, c6, d_ma]
                  · intro _ _
                    refine ⟨m1, m2, m3, m4, m5, ?_⟩
                    calc (mainTailStage (combatStage (drainStage s e) e) e).health ≤
                        (combatStage (drainStage s e) e).maxHealth := m6
                      _ = s.maxHealth := by rw [c4, d_mh]
                  · exact fun _ hsh => absurd hsh h2
                  · exact fun _ hag => absurd hag h3
                  · exact fun _ hd => absurd hd h4
                  · exact fun hft => by simp [hf0] at hft

/-- Witness for C1 at a healthy creature on the main path with no combat
effects: the update returns alive with hunger still in range. -/
theorem C1_invariants_amended_witness :
    0 ≤ (creatureUpdate
      { hunger := 80, thirst := 80, health := 10, maxHealth := 10, age := 0,
        maxAge := 1000000 }
      { fleeBugEnv with fleeThreat := false }).2.hunger := by
  have h := C1_invariants_amended
    { hunger := 80, thirst := 80, health := 10, maxHealth := 10, age := 0, maxAge := 1000000 }
    { fleeBugEnv with fleeThreat := false }
    (by norm_num [fleeBugEnv]) (by norm_num [fleeBugEnv]) (by norm_num) (by norm_num)
    (by norm_num) (by norm_num) (by norm_num) (by norm_num)
    (by norm_num [fleeBugEnv]) (by norm_num [fleeBugEnv]) (by norm_num [fleeBugEnv])
  exact (h.2.2.2.1 rfl (by norm_num [creatureUpdate, drainStage, fleeBugEnv, combatStage,
    mainTailStage, applyEatEffect, applyDrinkEffect, applyReproCost, clampStage])).1

/-- Reproduction-relevant state of one creature, the fields read and
written by Creature.reproduce. -/
structure ReproCreature where
  id : ℕ
  sex : Sex
  age : ℤ
  maxAge : ℤ
  hunger : ℚ
  thirst : ℚ
  attractiveness : ℚ
  threshold : ℚ
  gestationTimer : ℤ
  gestationDuration : ℤ
  pendingOffspring : List (ℕ × ℕ)
  infertility : ℚ
  offspringCount : ℕ
  muts : List Mut
  packId : Option ℕ
deriving Repr, DecidableEq

/-- Outcome of one mating attempt in Creature.reproduce. -/
inductive ReproOutcome
  | noAttempt
  | matingFailed
  | gestationStarted
deriving Repr, DecidableEq

/-- Embedding of handle_twin_gene: with Twin Gene on either parent the
offspring count doubles (capped at 10) and the hunger/thirst cost is
skipped. -/
def handleTwinGene (p1 p2 : ReproCreature) (base : ℕ) : ℕ × Bool :=
  if Mut.twinGene ∈ p1.muts ∨ Mut.twinGene ∈ p2.muts then (min 10 (base * 2), true)
  else (base, false)

/-- Embedding of handle_brood_sac: with Brood Sac on the mother the
offspring count grows by half (rounded up, capped at 10) and gestation
time becomes 0; otherwise the gestation override is None. -/
def handleBroodSac (mother : ReproCreature) (base : ℕ) : ℕ × Option ℕ :=
  if Mut.broodSac ∈ mother.muts then (min 10 (Nat.ceil ((base : ℚ) * 3 / 2)), some 0)
  else (base, none)

/-- Hunger and thirst cost of a successful mating, floored at 0. -/
def applyMatingCost (c : ReproCreature) (cost : ℚ) : ReproCreature :=
  { c with hunger := max 0 (c.hunger - cost), thirst := max 0 (c.thirst - cost) }

/-- Embedding of Creature.reproduce for one candidate pair, following the
source guards in order: the age window of self, the already-gestating
or pending check and the remaining-lifespan check for a female self,
the hunger/thirst floor of 50 on both sides, opposite sexes, mutual
attractiveness (scaled by age_factor) against the partner threshold,
the age window of the candidate and the contact range; then the
infertility roll (uniform(0, 100) < (mother.infertility +
father.infertility) / 4 fails the mating with no state change), the
cross-pack Pack-mentality exclusion, and on success the offspring
batch enqueued on the mother, the hunger/thirst cost on both parents,
the Loyal Mate gestation halving, and the gestation timer set to now +
gestation_duration (now for a Brood Sac mother). The result is the
outcome with the updated pair in (self, other) order. -/
def reproduceStep (self other : ReproCreature) (ageFactor : ℚ) (now : ℤ)
    (infertilityRoll : ℚ) (withinRange : Bool) :
    ReproOutcome × ReproCreature × ReproCreature :=
  let agePct := (self.age : ℚ) / (self.maxAge : ℚ)
  if agePct < 1 / 10 ∨ 9 / 10 < agePct then (ReproOutcome.noAttempt, self, other)
  else if self.sex = Sex.F ∧ (now < self.gestationTimer ∨ self.pendingOffspring ≠ []) then
    (ReproOutcome.noAttempt, self, other)
  else if self.sex = Sex.F ∧ self.maxAge - self.age < self.gestationDuration then
    (ReproOutcome.noAttempt, self, other)
  else if self.hunger < 50 ∨ self.thirst < 50 then (ReproOutcome.noAttempt, self, other)
  else if self.sex = other.sex then (ReproOutcome.noAttempt, self, other)
  else if other.hunger < 50 ∨ other.thirst < 50 then (ReproOutcome.noAttempt, self, other)
  else if self.attractiveness * ageFactor < other.threshold ∨
      other.attractiveness * ageFactor < self.threshold then
    (ReproOutcome.noAttempt, self, other)
  else if (other.age : ℚ) / (other.maxAge : ℚ) < 1 / 10 ∨
      9 / 10 < (other.age : ℚ) / (other.maxAge : ℚ) then
    (ReproOutcome.noAttempt, self, other)
  else if ¬ withinRange then (ReproOutcome.noAttempt, self, other)
  else
    let mother := if self.sex = Sex.F then self else other
    let father := if self.sex = Sex.F then other else self
    if infertilityRoll < (mother.infertility + father.infertility) / 4 then
      (ReproOutcome.matingFailed, self, other)
    else if Mut.packMentality ∈ self.muts ∧ Mut.packMentality ∈ other.muts ∧
        self.packId ≠ other.packId then
      (ReproOutcome.noAttempt, self, other)
    else
      let tg := handleTwinGene mother father mother.offspringCount
      let bs := handleBroodSac mother tg.1
      let mother1 := { mother with
        pendingOffspring := mother.pendingOffspring ++ [(father.id, bs.1)] }
      let cost : ℚ := (bs.1 : ℚ) * 10
      let mother2 := if tg.2 then mother1 else applyMatingCost mother1 cost
      let father2 := if tg.2 then father else applyMatingCost father cost
      let mother3 := if Mut.loyalMate ∈ mother2.muts ∨ Mut.loyalMate ∈ father2.muts then
          { mother2 with gestationDuration := max 1000 (mother2.gestationDuration / 2) }
        else mother2
      let mother4 := if bs.2 = some 0 then { mother3 with gestationTimer := now }
        else { mother3 with gestationTimer := now + mother3.gestationDuration }
      if self.sex = Sex.F then (ReproOutcome.gestationStarted, mother4, father2)
      else (ReproOutcome.gestationStarted, father2, mother4)

/-- Eligible female for the C10 counterexample: age 89 percent of max_age
(inside the fertile window), well fed, attractive, not gestating, but
with only 33000 ms of life left against a 60000 ms gestation
duration. -/
def lateFemale : ReproCreature :=
  { id := 1, sex := Sex.F, age := 267000, maxAge := 300000, hunger := 80, thirst := 80,
    attractiveness := 1, threshold := 1 / 2, gestationTimer := 0, gestationDuration := 60000,
    pendingOffspring := [], infertility := 10, offspringCount := 2, muts := [],
    packId := none }

/-- Eligible male partner for the C10 counterexample. -/
def midMale : ReproCreature :=
  { id := 2, sex := Sex.M, age := 150000, maxAge := 300000, hunger := 80, thirst := 80,
    attractiveness := 1, threshold := 1 / 2, gestationTimer := 0, gestationDuration := 40000,
    pendingOffspring := [], infertility := 10, offspringCount := 2, muts := [],
    packId := none }

/-- Counterexample to claim C10: lateFemale and midMale satisfy every
eligibility condition of the claim (opposite sex, hunger and thirst at
80 >= 70, mutual attractiveness 1 >= threshold 0.5 at age_factor 1,
age fractions 0.89 and 0.5 inside [0.1, 0.9], adjacent, female not
gestating and with no pending offspring), yet the mating attempt has
neither claimed outcome: because the female's gestation_duration
60000 exceeds her remaining lifespan 33000, reproduce returns before
the infertility roll, so gestation does not start and the attempt does
not fail via the roll either. -/
theorem C10_counterexample :
    lateFemale.sex = Sex.F ∧ midMale.sex = Sex.M ∧
    (70 : ℚ) ≤ lateFemale.hunger ∧ (70 : ℚ) ≤ lateFemale.thirst ∧
    (70 : ℚ) ≤ midMale.hunger ∧ (70 : ℚ) ≤ midMale.thirst ∧
    midMale.threshold ≤ lateFemale.attractiveness * 1 ∧
    lateFemale.threshold ≤ midMale.attractiveness * 1 ∧
    (1 / 10 : ℚ) ≤ (lateFemale.age : ℚ) / (lateFemale.maxAge : ℚ) ∧
    (lateFemale.age : ℚ) / (lateFemale.maxAge : ℚ) ≤ 9 / 10 ∧
    (1 / 10 : ℚ) ≤ (midMale.age : ℚ) / (midMale.maxAge : ℚ) ∧
    (midMale.age : ℚ) / (midMale.maxAge : ℚ) ≤ 9 / 10 ∧
    ¬ ((1000000 : ℤ) < lateFemale.gestationTimer) ∧ lateFemale.pendingOffspring = [] ∧
    reproduceStep lateFemale midMale 1 1000000 50 true =
      (ReproOutcome.noAttempt, lateFemale, midMale) := by
  refine ⟨rfl, rfl, by norm_num [lateFemale], by norm_num [lateFemale],
    by norm_num [midMale], by norm_num [midMale], by norm_num [lateFemale, midMale],
    by norm_num [lateFemale, midMale], by norm_num [lateFemale], by norm_num [lateFemale],
    by norm_num [midMale], by norm_num [midMale], by norm_num [lateFemale], rfl, ?_⟩
  norm_num [reproduceStep, lateFemale, midMale]

/-- Claim C10 (amended): for a mutually eligible adjacent opposite-sex
pair (as in the claim: opposite sexes, both hunger and thirst >= 70,
mutual attractiveness at least the partner threshold, both in the
fertile age window, female neither gestating nor holding pending
offspring) carrying no special mutations, and additionally with the
female's gestation_duration at most her remaining lifespan (a guard
the code applies before anything else; without it the attempt silently
does nothing, see the counterexample), one mating attempt has exactly
one of two outcomes: when the infertility roll is below
(mother.infertility + father.infertility) / 4 the mating fails with
both creatures unchanged, and otherwise gestation starts on the
mother with her timer set to now + gestation_duration and the
offspring batch enqueued; the attempt is never resolved as neither. -/
theorem C10_mating_dichotomy (self other : ReproCreature) (ageFactor : ℚ) (now : ℤ)
    (roll : ℚ)
    (hsexF : self.sex = Sex.F) (hsexM : other.sex = Sex.M)
    (hage1 : 1 / 10 ≤ (self.age : ℚ) / (self.maxAge : ℚ))
    (hage2 : (self.age : ℚ) / (self.maxAge : ℚ) ≤ 9 / 10)
    (hoage1 : 1 / 10 ≤ (other.age : ℚ) / (other.maxAge : ℚ))
    (hoage2 : (other.age : ℚ) / (other.maxAge : ℚ) ≤ 9 / 10)
    (hnotPreg : ¬ (now < self.gestationTimer)) (hnoPending : self.pendingOffspring = [])
    (hlife : self.gestationDuration ≤ self.maxAge - self.age)
    (hh1 : 70 ≤ self.hunger) (ht1 : 70 ≤ self.thirst)
    (hh2 : 70 ≤ other.hunger) (ht2 : 70 ≤ other.thirst)
    (hattr1 : other.threshold ≤ self.attractiveness * ageFactor)
    (hattr2 : self.threshold ≤ other.attractiveness * ageFactor)
    (hmuts1 : self.muts = []) (hmuts2 : other.muts = []) :
    (roll < (self.infertility + other.infertility) / 4 →
      reproduceStep self other ageFactor now roll true =
        (ReproOutcome.matingFailed, self, other)) ∧
    (¬ (roll < (self.infertility + other.infertility) / 4) →
      (reproduceStep self other ageFactor now roll true).1 =
        ReproOutcome.gestationStarted ∧
      (reproduceStep self other ageFactor now roll true).2.1.gestationTimer =
        now + self.gestationDuration ∧
      (reproduceStep self other ageFactor now roll true).2.1.pendingOffspring =
        [(other.id, self.offspringCount)] ∧
      (reproduceStep self other ageFactor now roll true).2.2 =
        applyMatingCost other ((self.offspringCount : ℚ) * 10)) ∧
    ¬ (reproduceStep self other ageFactor now roll true).1 = ReproOutcome.noAttempt := by
  have g1 : ¬ ((self.age : ℚ) / (self.maxAge : ℚ) < 1 / 10 ∨
      9 / 10 < (self.age : ℚ) / (self.maxAge : ℚ)) := by
    push_neg
    exact ⟨hage1, hage2⟩
  have g2 : ¬ (self.sex = Sex.F ∧
      (now < self.gestationTimer ∨ self.pendingOffspring ≠ [])) := by
    intro hcon
    rcases hcon.2 with h | h
    · exact hnotPreg h
    · exact h hnoPending
  have g3 : ¬ (self.sex = Sex.F ∧ self.maxAge - self.age < self.gestationDuration) :=
    fun hcon => absurd hcon.2 (not_lt.mpr hlife)
  have g4 : ¬ (self.hunger < 50 ∨ self.thirst < 50) := by
    push_neg
    constructor <;> linarith
  have g5 : ¬ (self.sex = other.sex) := by
    rw [hsexF, hsexM]
    simp
  have g6 : ¬ (other.hunger < 50 ∨ other.thirst < 50) := by
    push_neg
    constructor <;> linarith
  have g7 : ¬ (self.attractiveness * ageFactor < other.threshold ∨
      other.attractiveness * ageFactor < self.threshold) := by
    push_neg
    exact ⟨hattr1, hattr2⟩
  have g8 : ¬ ((other.age : ℚ) / (other.maxAge : ℚ) < 1 / 10 ∨
      9 / 10 < (other.age : ℚ) / (other.maxAge : ℚ)) := by
    push_neg
    exact ⟨hoage1, hoage2⟩
  by_cases hroll : roll < (self.infertility + other.infertility) / 4
  · have hu : reproduceStep self other ageFactor now roll true =
        (ReproOutcome.matingFailed, self, other) := by
      have hlife3 : ¬ (self.maxAge - self.age < self.gestationDuration) := not_lt.mpr hlife
      simp only [reproduceStep, g1, g2, g3, g4, g5, g6, g7, g8, hsexF, if_false, if_true,
        ite_false, ite_true, not_true, Bool.true_eq_false, reduceIte]
      simp [hsexF, hsexM, hroll, hnotPreg, hnoPending, hlife3]
    refine ⟨fun _ => hu, fun hcon => absurd hroll hcon, ?_⟩
    rw [hu]
    simp
  · have hu : reproduceStep self other ageFactor now roll true =
        (ReproOutcome.gestationStarted,
          { self with
              pendingOffspring := [(other.id, self.offspringCount)],
              hunger := max 0 (self.hunger - (self.offspringCount : ℚ) * 10),
              thirst := max 0 (self.thirst - (self.offspringCount : ℚ) * 10),
              gestationTimer := now + self.gestationDuration },
          applyMatingCost other ((self.offspringCount : ℚ) * 10)) := by
      have hlife3 : ¬ (self.maxAge - self.age < self.gestationDuration) := not_lt.mpr hlife
      simp only [reproduceStep, g1, g2, g3, g4, g5, g6, g7, g8, hsexF, if_false, if_true,
        ite_false, ite_true, reduceIte]
      simp [hsexF, hsexM, hroll, hnotPreg, hnoPending, hlife3, handleTwinGene,
        handleBroodSac, hmuts1, hmuts2, applyMatingCost]
    refine ⟨fun hcon => absurd hcon hroll, fun _ => ?_, ?_⟩
    · rw [hu]
      exact ⟨rfl, rfl, rfl, rfl⟩
    · rw [hu]
      simp

/-- Witness for C10 at a concrete healthy pair: with a roll of 50 against
infertility chance (10 + 10) / 4 = 5, the mating succeeds and the
gestation timer lands at now + gestation_duration. -/
theorem C10_mating_dichotomy_witness :
    (reproduceStep { lateFemale with age := 150000 } midMale 1 1000000 50 true).1 =
      ReproOutcome.gestationStarted ∧
    (reproduceStep { lateFemale with age := 150000 } midMale 1 1000000 50 true).2.1.gestationTimer = 1060000 ∧
    reproduceStep { lateFemale with age := 150000 } midMale 1 1000000 2 true =
      (ReproOutcome.matingFailed, { lateFemale with age := 150000 }, midMale) := by
  have hsucc := C10_mating_dichotomy { lateFemale with age := 150000 } midMale 1 1000000 50
    rfl rfl (by norm_num [lateFemale]) (by norm_num [lateFemale]) (by norm_num [midMale])
    (by norm_num [midMale]) (by norm_num [lateFemale]) rfl (by norm_num [lateFemale])
    (by norm_num [lateFemale]) (by norm_num [lateFemale]) (by norm_num [midMale])
    (by norm_num [midMale]) (by norm_num [lateFemale, midMale])
    (by norm_num [lateFemale, midMale]) rfl rfl
  have hfail := C10_mating_dichotomy { lateFemale with age := 150000 } midMale 1 1000000 2
    rfl rfl (by norm_num [lateFemale]) (by norm_num [lateFemale]) (by norm_num [midMale])
    (by norm_num [midMale]) (by norm_num [lateFemale]) rfl (by norm_num [lateFemale])
    (by norm_num [lateFemale]) (by norm_num [lateFemale]) (by norm_num [midMale])
    (by norm_num [midMale]) (by norm_num [lateFemale, midMale])
    (by norm_num [lateFemale, midMale]) rfl rfl
  have hs := hsucc.2.1 (by norm_num [lateFemale, midMale])
  refine ⟨hs.1, ?_, hfail.1 (by norm_num [lateFemale, midMale])⟩
  rw [hs.2.1]
  norm_num [lateFemale]
